import Mathlib

/-!
# Verification of the dom-physics engine

A shallow embedding, over exact rationals, of the physics core of the
`dom-physics` repository: the Verlet body state and its operations
(`applyForce`, `setVelocity`, `integrate`, `getVelocity`), the property
inheritance chain (`getEffectiveGravity` and friends), the constraint
solver (`Constraint.solve`), collision resolution (`World.resolveCollision`),
bounds containment (`World.constrainToBounds`), the body constructor, and
the `SpatialHash` broad phase.

JavaScript `number`s are modelled as exact rationals (`ℚ`).  The two places
the source takes a square root (`Math.sqrt(distSq)` in collision resolution
and `Math.sqrt(dx*dx+dy*dy)` in the constraint solver) are modelled by
passing the root as an explicit argument; theorems constrain it by
`root * root = radicand ∧ 0 ≤ root`, and concrete instances use
axis-aligned configurations whose distances are exactly rational.
-/

namespace DomPhysics

/-- A rectangle `{x, y, width, height}` as used for world bounds
(`World.bounds` in `World.ts`). -/
structure Rect where
  x : ℚ
  y : ℚ
  width : ℚ
  height : ℚ
  deriving DecidableEq, Repr

/-- The global simulation parameters a `World` owns (`World.ts` constructor):
gravity, friction, restitution, fixed timestep and bounds. -/
structure WorldParams where
  gravity : ℚ
  friction : ℚ
  restitution : ℚ
  timeStep : ℚ
  bounds : Rect
  deriving DecidableEq, Repr

/-- The physics state of a `Body`.  This is the union of the fields of the
`Body` variants in the repository that the verified operations touch:
`x`/`y`/`prevX`/`prevY` (Verlet state), `ax`/`ay` (accumulated
acceleration, `Body.ts`), `fx`/`fy` (accumulated force, used by
`World._bodiesApplyGravity`), `originX`/`originY` (world-space origin),
`mass`/`radius`, the nullable `gravity`/`friction`/`restitution`
overrides, the `isStatic`/`sleeping`/`enabled`/`isDragged` flags, and the
`constraintImpulseX/Y` accumulators used by `Constraint`.  The `id` field
models JavaScript object identity (each `new Body(...)` is a distinct
object). -/
structure Body where
  id : ℕ
  x : ℚ
  y : ℚ
  prevX : ℚ
  prevY : ℚ
  ax : ℚ
  ay : ℚ
  fx : ℚ
  fy : ℚ
  originX : ℚ
  originY : ℚ
  mass : ℚ
  radius : ℚ
  gravity : Option ℚ
  friction : Option ℚ
  restitution : Option ℚ
  isStatic : Bool
  sleeping : Bool
  enabled : Bool
  isDragged : Bool
  constraintImpulseX : ℚ
  constraintImpulseY : ℚ
  deriving DecidableEq, Repr

namespace Body

/-- World-space x position of a body that is a direct child of the world:
`getWorldPosition().x = originX + x` (`Body.ts` `getWorldPosition`). -/
def worldX (b : Body) : ℚ := b.originX + b.x

/-- World-space y position: `getWorldPosition().y = originY + y`. -/
def worldY (b : Body) : ℚ := b.originY + b.y

/-- Modelled from the spec: the `Body` source consumed by the full
`World.ts`/`Constraint.ts` (the variant with an `inverseMass` field,
`isDragged` and accumulated forces `fx`/`fy`) is not among the repository
files; the spec defines inverse mass as "1/mass, with 0 representing
infinite mass (immovable/static)" and "derived inverseMass (0 for
static/infinite-mass entities)". -/
def inverseMass (b : Body) : ℚ := if b.isStatic then 0 else 1 / b.mass

/-- `Body.getVelocity` (`Body.ts` lines 258–263): velocity is the Verlet
difference `(x − prevX, y − prevY)`. -/
def getVelocity (b : Body) : ℚ × ℚ := (b.x - b.prevX, b.y - b.prevY)

/-- `Body.applyForce` (`Body.ts` lines 268–277): no-op on static or
disabled bodies, otherwise accumulate `a += f/m` and wake the body. -/
def applyForce (b : Body) (ffx ffy : ℚ) : Body :=
  if b.isStatic ∨ ¬ b.enabled then b
  else { b with ax := b.ax + ffx / b.mass, ay := b.ay + ffy / b.mass, sleeping := false }

/-- `Body.setVelocity` (`Body.ts` lines 282–291): no-op on static or
disabled bodies, otherwise rewrite the previous position so the implied
Verlet velocity equals `(vx, vy)`, and wake the body. -/
def setVelocity (b : Body) (vx vy : ℚ) : Body :=
  if b.isStatic ∨ ¬ b.enabled then b
  else { b with prevX := b.x - vx, prevY := b.y - vy, sleeping := false }

/-- `Body.integrate` (the optimized variant concatenated into
`composites.ts`, lines 978–1018; identical in structure to the simple
`Body` variant's `integrate(dt, world)`): skip static/disabled bodies;
resolve effective gravity and friction (own override, else the containing
world's value — the `cachedWorld` fast path); `ay += gravity`;
`v = (current − previous) * friction`; shift `previous := current`;
`current += v + a·dt²`; reset the acceleration accumulator. -/
def integrate (w : WorldParams) (dt : ℚ) (b : Body) : Body :=
  if b.isStatic ∨ ¬ b.enabled then b
  else
    let g := b.gravity.getD w.gravity
    let fr := b.friction.getD w.friction
    let ay' := b.ay + g
    let vx := (b.x - b.prevX) * fr
    let vy := (b.y - b.prevY) * fr
    { b with
      prevX := b.x
      prevY := b.y
      x := b.x + vx + b.ax * dt * dt
      y := b.y + vy + ay' * dt * dt
      ax := 0
      ay := 0 }

/-- The per-body action of `World._bodiesApplyGravity` (`World.ts` lines
349–359): skip static, disabled or dragged bodies, else accumulate the
force `fy += mass * gravity`.  (The surrounding loop is skipped entirely
when the world gravity is `0`; the per-body effect is then also the
identity since `mass * 0 = 0` is added.) -/
def applyGravityForce (g : ℚ) (b : Body) : Body :=
  if b.isStatic ∨ ¬ b.enabled ∨ b.isDragged then b
  else { b with fy := b.fy + b.mass * g }

/-- The per-body action of `Constraint.postSolveAll` (`Constraint.ts`,
concatenated into `composites.ts` lines 609–618): skip static or dragged
bodies, else damp the cached constraint impulse by the warming factor
`0.9`. -/
def postSolveWarm (b : Body) : Body :=
  if b.isStatic ∨ b.isDragged then b
  else { b with
    constraintImpulseX := b.constraintImpulseX * (9 / 10)
    constraintImpulseY := b.constraintImpulseY * (9 / 10) }

end Body

/-- `World.constrainToBounds` (`World.ts` lines 680–768).  Skips static,
disabled or dragged bodies.  The world position `pos` is captured once at
entry and used by all four wall conditions (as in the source).  For each
violated wall the body is pushed back inside (`y += diff` / `x += diff`);
if the incoming Verlet velocity on that axis is below `0.3` in magnitude
the body is hard-stopped (`prev := current`) and the function returns
early, otherwise the velocity is reflected by the restitution rule
`new_prev = current + (current − prev) * restitution` and the next wall
check runs.  Wall order: bottom, top, left, right. -/
def constrainToBounds (w : WorldParams) (b0 : Body) : Body :=
  if b0.isStatic ∨ ¬ b0.enabled ∨ b0.isDragged then b0
  else
    let rest := b0.restitution.getD w.restitution
    let posX := b0.worldX
    let posY := b0.worldY
    let rightCheck : Body → Body := fun b =>
      if posX + b.radius > w.bounds.width then
        let diff := (w.bounds.width - b.radius) - posX
        if |b.x - b.prevX| < 3 / 10 then { b with x := b.x + diff, prevX := b.x + diff }
        else { b with x := b.x + diff, prevX := (b.x + diff) + ((b.x + diff) - b.prevX) * rest }
      else b
    let leftCheck : Body → Body := fun b =>
      if posX - b.radius < 0 then
        let diff := b.radius - posX
        if |b.x - b.prevX| < 3 / 10 then { b with x := b.x + diff, prevX := b.x + diff }
        else rightCheck { b with x := b.x + diff, prevX := (b.x + diff) + ((b.x + diff) - b.prevX) * rest }
      else rightCheck b
    let topCheck : Body → Body := fun b =>
      if posY - b.radius < 0 then
        let diff := b.radius - posY
        if |b.y - b.prevY| < 3 / 10 then { b with y := b.y + diff, prevY := b.y + diff }
        else leftCheck { b with y := b.y + diff, prevY := (b.y + diff) + ((b.y + diff) - b.prevY) * rest }
      else leftCheck b
    if posY + b0.radius > w.bounds.height then
      let diff := (w.bounds.height - b0.radius) - posY
      if |b0.y - b0.prevY| < 3 / 10 then { b0 with y := b0.y + diff, prevY := b0.y + diff }
      else topCheck { b0 with y := b0.y + diff, prevY := (b0.y + diff) + ((b0.y + diff) - b0.prevY) * rest }
    else topCheck b0

/-- `World.resolveCollision` (`World.ts` lines 361–678).  The constraint
network queries of the source are supplied as arguments: `hasConA`/`hasConB`
(`_constraintNetworkCache.has`), `directCon` (direct adjacency) and
`netCon` (`_areBodiesInSameConstraintNetwork`).  `dist` and `relVel` stand
for `Math.sqrt(distSq)` and `Math.sqrt(relVelSq)`; theorems about this
function constrain them by `dist * dist = distSq`, `0 ≤ dist` (and
likewise for `relVel`).  Debug logging branches of the source are
side-effect free and omitted.  Returns the updated pair `(a, b)`. -/
def resolveCollision (w : WorldParams) (hasConA hasConB directCon netCon : Bool)
    (dist relVel : ℚ) (a b : Body) : Body × Body :=
  if a.isDragged ∨ b.isDragged then (a, b)
  else
    let dx := b.worldX - a.worldX
    let dy := b.worldY - a.worldY
    let distSq := dx * dx + dy * dy
    let minDist := a.radius + b.radius
    let aVx := a.x - a.prevX
    let aVy := a.y - a.prevY
    let bVx := b.x - b.prevX
    let bVy := b.y - b.prevY
    let relVx := bVx - aVx
    let relVy := bVy - aVy
    let effectiveMinDist := if relVel > 5 then minDist + relVel * (8 / 10) else minDist
    if distSq ≥ effectiveMinDist * effectiveMinDist ∨ distSq = 0 then (a, b)
    else if hasConA ∧ hasConB ∧ directCon then (a, b)
    else if hasConA ∧ hasConB ∧
        distSq < (max a.radius b.radius * 3) * (max a.radius b.radius * 3) then (a, b)
    else if hasConA ∧ hasConB ∧ netCon then (a, b)
    else
      let nx := dx / dist
      let ny := dy / dist
      let overlap := minDist - dist
      if |ny| > 9 / 10 ∧ overlap < 1 ∧ relVel < 1 / 2 then (a, b)
      else
        let totalMass := a.mass + b.mass
        let ratioA := b.mass / totalMass
        let ratioB := a.mass / totalMass
        let adj : ℚ × ℚ :=
          if |ny| > 9 / 10 then (0, if ny > 9 / 10 then ny else ny * (2 / 10))
          else if |ny| > 7 / 10 then
            (nx * (5 / 100), if ny < -(3 / 10) then ny * (3 / 10) else ny)
          else if ny < -(3 / 10) then (nx, ny * (3 / 10))
          else (nx, ny)
        let adjNX := if |ny| < 5 / 10 then nx * (3 / 10) else adj.1
        let adjNY := adj.2
        let correctionDamping : ℚ := if |ny| > 9 / 10 then 1 / 2 else 1
        let cAX := adjNX * overlap * ratioA * correctionDamping
        let cAY := adjNY * overlap * ratioA * correctionDamping
        let cBX := adjNX * overlap * ratioB * correctionDamping
        let cBY := adjNY * overlap * ratioB * correctionDamping
        let a1 := if ¬ a.isStatic ∧ ¬ a.isDragged then { a with x := a.x - cAX, y := a.y - cAY } else a
        let b1 := if ¬ b.isStatic ∧ ¬ b.isDragged then { b with x := b.x + cBX, y := b.y + cBY } else b
        let relVelAlongNormal := relVx * nx + relVy * ny
        let a2 :=
          if |ny| > 9 / 10 ∧ ¬ a.isStatic ∧ ¬ a.isDragged then
            { a1 with
              prevX := a1.x - (aVx + ((aVx + bVx) / 2 - aVx) * (9 / 10))
              prevY := a1.y - (aVy + ((aVy + bVy) / 2 - aVy) * (9 / 10)) }
          else a1
        let b2 :=
          if |ny| > 9 / 10 ∧ ¬ b.isStatic ∧ ¬ b.isDragged then
            { b1 with
              prevX := b1.x - (bVx + ((aVx + bVx) / 2 - bVx) * (9 / 10))
              prevY := b1.y - (bVy + ((aVy + bVy) / 2 - bVy) * (9 / 10)) }
          else b1
        if relVelAlongNormal > -(1 / 2) then (a2, b2)
        else if |ny| > 9 / 10 ∧ relVelAlongNormal > -2 then (a2, b2)
        else
          let restAB := min (a.restitution.getD w.restitution) (b.restitution.getD w.restitution)
          let effRest :=
            if |ny| > 9 / 10 then restAB * (1 / 100)
            else if ny < -(7 / 10) ∨ ny > 7 / 10 then restAB * (1 / 10)
            else restAB
          let impulse := (1 + effRest) * relVelAlongNormal / (a.inverseMass + b.inverseMass)
          let imp : ℚ × ℚ :=
            if |ny| > 9 / 10 then (0, if ny > 9 / 10 then ny else ny * (1 / 10))
            else if |ny| < 5 / 10 then (nx * (2 / 10), ny)
            else (nx, ny)
          let impulseX := impulse * imp.1
          let impulseY := impulse * imp.2
          let a3 :=
            if ¬ a.isStatic ∧ ¬ a.isDragged then
              { a2 with
                prevX := a2.x - (aVx + impulseX * a.inverseMass)
                prevY := a2.y - (aVy + impulseY * a.inverseMass) }
            else a2
          let b3 :=
            if ¬ b.isStatic ∧ ¬ b.isDragged then
              { b2 with
                prevX := b2.x - (bVx - impulseX * b.inverseMass)
                prevY := b2.y - (bVy - impulseY * b.inverseMass) }
            else b2
          (a3, b3)

/-- The configuration record of `Constraint` (`Constraint.ts`, concatenated
into `composites.ts`): attachment offsets, target length, stiffness and
damping.  The bodies themselves are passed to `solve` separately. -/
structure ConstraintData where
  pointAx : ℚ
  pointAy : ℚ
  pointBx : ℚ
  pointBy : ℚ
  length : ℚ
  stiffness : ℚ
  damping : ℚ
  deriving DecidableEq, Repr

/-- `Constraint._minLength = 0.000001` — the minimum distance used to
prevent division by zero. -/
def minLength : ℚ := 1 / 1000000

/-- `Constraint.getWorldPointA`: a fixed world point when `bodyA` is null,
else `bodyA`'s world position plus the local offset. -/
def getWorldPointA (c : ConstraintData) (a? : Option Body) : ℚ × ℚ :=
  match a? with
  | none => (c.pointAx, c.pointAy)
  | some A => (A.worldX + c.pointAx, A.worldY + c.pointAy)

/-- `Constraint.getWorldPointB`: `bodyB`'s world position plus the local
offset. -/
def getWorldPointB (c : ConstraintData) (bB : Body) : ℚ × ℚ :=
  (bB.worldX + c.pointBx, bB.worldY + c.pointBy)

/-- `Constraint.solve` (`Constraint.ts`, concatenated into `composites.ts`
lines 451–584).  `t` is the `timeScale` argument (`World.step` passes
`1.0`).  `curLen` stands for `Math.sqrt(dx*dx + dy*dy)`, the distance
between the world attachment points; theorems constrain it by
`curLen * curLen = dx² + dy²` and `0 ≤ curLen`.  Returns the updated
`(bodyA?, bodyB)` pair. -/
def solveConstraint (c : ConstraintData) (t : ℚ) (curLen : ℚ)
    (a? : Option Body) (bB : Body) : Option Body × Body :=
  if (match a? with | some A => !A.enabled || A.isDragged | none => false : Bool) then (a?, bB)
  else if ¬ bB.enabled ∨ bB.isDragged then (a?, bB)
  else
    let wA := getWorldPointA c a?
    let wB := getWorldPointB c bB
    let dx := wA.1 - wB.1
    let dy := wA.2 - wB.2
    let len := if curLen < minLength then minLength else curLen
    let difference := (len - c.length) / len
    let clamped := max (-(1 / 2)) (min (1 / 2) difference)
    let stiff := if 1 ≤ c.stiffness ∨ c.length = 0 then c.stiffness * t else c.stiffness * t * t
    let fX := dx * (clamped * stiff)
    let fY := dy * (clamped * stiff)
    let massTotal := (match a? with | some A => A.inverseMass | none => 0) + bB.inverseMass
    if massTotal = 0 then (a?, bB)
    else
      let dampXY : ℚ × ℚ :=
        if c.damping > 0 ∧ len > minLength then
          let velAX := match a? with | some A => A.x - A.prevX | none => 0
          let velAY := match a? with | some A => A.y - A.prevY | none => 0
          let relVX := velAX - (bB.x - bB.prevX)
          let relVY := velAY - (bB.y - bB.prevY)
          let nx := dx / len
          let ny := dy / len
          let normalVelocity := relVX * nx + relVY * ny
          (c.damping * t * nx * normalVelocity, c.damping * t * ny * normalVelocity)
        else (0, 0)
      let a' : Option Body :=
        match a? with
        | none => none
        | some A =>
          if ¬ A.isStatic then
            let share := A.inverseMass / massTotal
            let A1 := { A with
              constraintImpulseX := A.constraintImpulseX - fX * share
              constraintImpulseY := A.constraintImpulseY - fY * share
              x := A.x - fX * share
              y := A.y - fY * share }
            some (if c.damping > 0 then
              { A1 with prevX := A1.prevX - dampXY.1 * share, prevY := A1.prevY - dampXY.2 * share }
            else A1)
          else some A
      let b' : Body :=
        if ¬ bB.isStatic then
          let share := bB.inverseMass / massTotal
          let B1 := { bB with
            constraintImpulseX := bB.constraintImpulseX + fX * share
            constraintImpulseY := bB.constraintImpulseY + fY * share
            x := bB.x + fX * share
            y := bB.y + fY * share }
          if c.damping > 0 then
            { B1 with prevX := B1.prevX + dampXY.1 * share, prevY := B1.prevY + dampXY.2 * share }
          else B1
        else bB
      (a', b')

/-- One ancestor in a body's physics hierarchy, for the
`getEffectiveGravity`/`getEffectiveFriction`/`getEffectiveRestitution`
walks of `Body.ts` (lines 179–229): a `World` carries concrete values, a
plain `Body` carries nullable overrides. -/
inductive PNode
  | world (gravity friction restitution : ℚ)
  | plain (gravity friction restitution : Option ℚ)
  deriving DecidableEq, Repr

/-- The parent-walk of `Body.getEffectiveGravity`: return the first
ancestor world's gravity, or the first non-null ancestor override, else
`0` when the chain ends without a world. -/
def walkGravity : List PNode → ℚ
  | [] => 0
  | PNode.world g _ _ :: _ => g
  | PNode.plain g _ _ :: rest =>
    match g with
    | some v => v
    | none => walkGravity rest

/-- The parent-walk of `Body.getEffectiveFriction`; default `0.99`. -/
def walkFriction : List PNode → ℚ
  | [] => 99 / 100
  | PNode.world _ f _ :: _ => f
  | PNode.plain _ f _ :: rest =>
    match f with
    | some v => v
    | none => walkFriction rest

/-- The parent-walk of `Body.getEffectiveRestitution`; default `0.8`. -/
def walkRestitution : List PNode → ℚ
  | [] => 8 / 10
  | PNode.world _ _ r :: _ => r
  | PNode.plain _ _ r :: rest =>
    match r with
    | some v => v
    | none => walkRestitution rest

/-- `Body.getEffectiveGravity` (`Body.ts` lines 179–195): the body's own
override if non-null, else the parent walk.  `chain` lists the ancestors
from the immediate physics parent upward. -/
def getEffectiveGravity (own : Option ℚ) (chain : List PNode) : ℚ :=
  match own with
  | some g => g
  | none => walkGravity chain

/-- `Body.getEffectiveFriction` (`Body.ts` lines 197–212). -/
def getEffectiveFriction (own : Option ℚ) (chain : List PNode) : ℚ :=
  match own with
  | some f => f
  | none => walkFriction chain

/-- `Body.getEffectiveRestitution` (`Body.ts` lines 214–229). -/
def getEffectiveRestitution (own : Option ℚ) (chain : List PNode) : ℚ :=
  match own with
  | some r => r
  | none => walkRestitution chain

/-- A DOM bounding rectangle, as read by the `Body` constructor from
`getBoundingClientRect()`. -/
structure ElemRect where
  left : ℚ
  top : ℚ
  width : ℚ
  height : ℚ
  deriving DecidableEq, Repr

/-- The `BodyConfig` fields consumed by the constructor that affect the
embedded physics state (`Body.ts` lines 70–130).  `width`, `height`,
`bounds`, `collisionGroup` and `collidesWith` are stored verbatim by the
constructor but play no role in any verified operation and are omitted
from the embedded state. -/
structure BodyConfig where
  mass : Option ℚ := none
  radius : Option ℚ := none
  gravity : Option ℚ := none
  friction : Option ℚ := none
  restitution : Option ℚ := none
  isStatic : Option Bool := none
  enabled : Option Bool := none
  initialVelocity : Option (ℚ × ℚ) := none
  deriving DecidableEq, Repr

/-- The physics-state portion of the `Body` constructor (`Body.ts` lines
70–130): origin from the element and world rectangles; `x`/`y`
initialized to the initial velocity components with
`prev = current − initialVelocity` (lines 93–96); `mass := config.mass ?? 1`;
`radius := config.radius ?? max(width, height)/2`; nullable physics
overrides stored as given; flags defaulted.  There is no validation of
any field.  (`fx`/`fy`/`isDragged`/`constraintImpulse` belong to the
sibling `Body` variant and are zero-initialized here.) -/
def construct (i : ℕ) (cfg : BodyConfig) (elemRect worldRect : ElemRect) : Body :=
  let ivx := (cfg.initialVelocity.map Prod.fst).getD 0
  let ivy := (cfg.initialVelocity.map Prod.snd).getD 0
  { id := i
    x := ivx
    y := ivy
    prevX := ivx - ivx
    prevY := ivy - ivy
    ax := 0
    ay := 0
    fx := 0
    fy := 0
    originX := elemRect.left - worldRect.left
    originY := elemRect.top - worldRect.top
    mass := cfg.mass.getD 1
    radius := cfg.radius.getD (max elemRect.width elemRect.height / 2)
    gravity := cfg.gravity
    friction := cfg.friction
    restitution := cfg.restitution
    isStatic := cfg.isStatic.getD false
    sleeping := false
    enabled := cfg.enabled.getD true
    isDragged := false
    constraintImpulseX := 0
    constraintImpulseY := 0 }

/-! ## SpatialHash

`SpatialHash` keeps a `Map<string, Body[]>` keyed by `"cellX,cellY"`
(injective on integer cell coordinates, modelled as `Int × Int`), with
JavaScript `Map` insertion-order iteration modelled by an insertion-ordered
association list. -/

/-- One grid: insertion-ordered association list from cell coordinates to
the bodies pushed into that cell, in push order. -/
abbrev Grid := List ((Int × Int) × List Body)

/-- `this.grid.get(key).push(body)`, creating the cell on first use (in
JavaScript `Map` iteration order, new keys iterate last). -/
def gridAdd : Grid → (Int × Int) → Body → Grid
  | [], k, b => [(k, [b])]
  | (k', l) :: rest, k, b =>
    if k' = k then (k', l ++ [b]) :: rest else (k', l) :: gridAdd rest k b

/-- The neighbourhood offsets of `SpatialHash.insert`, in its loop order
(`dx` outer from −1 to 1, `dy` inner from −1 to 1). -/
def cellOffsets : List (Int × Int) :=
  [(-1, -1), (-1, 0), (-1, 1), (0, -1), (0, 0), (0, 1), (1, -1), (1, 0), (1, 1)]

/-- `SpatialHash.insert`: compute the containing cell by
`Math.floor(worldPos / cellSize)` and push the body into that cell and its
8 neighbours. -/
def shInsert (cellSize : ℚ) (g : Grid) (b : Body) : Grid :=
  let cellX : Int := ⌊b.worldX / cellSize⌋
  let cellY : Int := ⌊b.worldY / cellSize⌋
  cellOffsets.foldl (fun g' off => gridAdd g' (cellX + off.1, cellY + off.2) b) g

/-- JavaScript string coercion of a `Body` instance inside a template
literal: `Body` defines no `toString`/`Symbol.toPrimitive`, so
`` `${body}` `` yields the `Object.prototype.toString` default
`"[object Object]"` for every body. -/
def jsToString (_ : Body) : String := "[object Object]"

/-- The pair key of `SpatialHash.getPairs`:
``const pairKey = a < b ? `${a}-${b}` : `${b}-${a}`;`` — both the
relational comparison and the template literal coerce the bodies through
`jsToString`. -/
def pairKeyJs (a b : Body) : String :=
  if jsToString a < jsToString b then jsToString a ++ "-" ++ jsToString b
  else jsToString b ++ "-" ++ jsToString a

/-- Inner `j` loop of `SpatialHash.getPairs` for a fixed `a = cell[i]`:
skip pairs whose key is in `tested`, else record the key and emit the
pair. -/
def getPairsInner (a : Body) : List Body → List String × List (Body × Body) →
    List String × List (Body × Body)
  | [], st => st
  | b :: rest, (tested, acc) =>
    let key := pairKeyJs a b
    bif tested.contains key then getPairsInner a rest (tested, acc)
    else getPairsInner a rest (key :: tested, acc ++ [(a, b)])

/-- Outer `i` loop of `SpatialHash.getPairs` over one cell's body list. -/
def getPairsCell : List Body → List String × List (Body × Body) →
    List String × List (Body × Body)
  | [], st => st
  | a :: rest, st => getPairsCell rest (getPairsInner a rest st)

/-- Loop of `SpatialHash.getPairs` over all cells, threading the `tested`
set. -/
def getPairsAux : List (List Body) → List String × List (Body × Body) →
    List String × List (Body × Body)
  | [], st => st
  | c :: cs, st => getPairsAux cs (getPairsCell c st)

/-- `SpatialHash.getPairs` (`src/unnamed/part_003` lines 33–55). -/
def getPairs (g : Grid) : List (Body × Body) :=
  (getPairsAux (g.map Prod.snd) ([], [])).2

/-- Two bodies share at least one grid cell of `g` — the claim-side notion
of a candidate pair for `getPairs`. -/
def SharesCell (g : Grid) (a b : Body) : Prop :=
  ∃ e ∈ g, a ∈ e.2 ∧ b ∈ e.2

instance (g : Grid) (a b : Body) : Decidable (SharesCell g a b) := by
  unfold SharesCell
  infer_instance

/-! ## Simulation events

For the static-invariance claim, a simulation history is modelled as an
arbitrary finite sequence of the engine's primitive mutations applied to a
tracked body, with the partner body (and all numeric inputs) universally
quantified.  Each constructor corresponds to one phase of `World.step` or
one external-input call. -/

/-- One primitive mutation of a tracked body during simulation:
`applyForce`/`setVelocity` calls, the per-body gravity accumulation,
Verlet integration, collision resolution (as either member of the pair),
constraint solving (as either side), bounds containment, and the
post-solve impulse warming. -/
inductive Ev
  | force (ffx ffy : ℚ)
  | setVel (vx vy : ℚ)
  | gravityForce (g : ℚ)
  | integ (w : WorldParams) (dt : ℚ)
  | collideFst (w : WorldParams) (hca hcb dc nc : Bool) (dist relVel : ℚ) (other : Body)
  | collideSnd (w : WorldParams) (hca hcb dc nc : Bool) (dist relVel : ℚ) (other : Body)
  | solveAsA (c : ConstraintData) (t curLen : ℚ) (other : Body)
  | solveAsB (c : ConstraintData) (t curLen : ℚ) (otherA : Option Body)
  | bounds (w : WorldParams)
  | postWarm

/-- Apply one primitive mutation to the tracked body. -/
def applyEv (e : Ev) (b : Body) : Body :=
  match e with
  | .force ffx ffy => b.applyForce ffx ffy
  | .setVel vx vy => b.setVelocity vx vy
  | .gravityForce g => Body.applyGravityForce g b
  | .integ w dt => Body.integrate w dt b
  | .collideFst w hca hcb dc nc dist relVel other =>
    (resolveCollision w hca hcb dc nc dist relVel b other).1
  | .collideSnd w hca hcb dc nc dist relVel other =>
    (resolveCollision w hca hcb dc nc dist relVel other b).2
  | .solveAsA c t curLen other => ((solveConstraint c t curLen (some b) other).1).getD b
  | .solveAsB c t curLen otherA => (solveConstraint c t curLen otherA b).2
  | .bounds w => constrainToBounds w b
  | .postWarm => b.postSolveWarm

/-- Apply a finite history of primitive mutations, in order. -/
def runEvents (evs : List Ev) (b : Body) : Body :=
  evs.foldl (fun acc e => applyEv e acc) b

lemma resolveCollision_fst_static (w : WorldParams) (hca hcb dc nc : Bool)
    (dist relVel : ℚ) (a b : Body) (ha : a.isStatic = true) :
    (resolveCollision w hca hcb dc nc dist relVel a b).1 = a := by
  simp [resolveCollision, ha, apply_ite (f := Prod.fst)]

lemma resolveCollision_snd_static (w : WorldParams) (hca hcb dc nc : Bool)
    (dist relVel : ℚ) (a b : Body) (hb : b.isStatic = true) :
    (resolveCollision w hca hcb dc nc dist relVel a b).2 = b := by
  simp [resolveCollision, hb, apply_ite (f := Prod.snd)]

lemma solveConstraint_fst_static (c : ConstraintData) (t curLen : ℚ)
    (A bB : Body) (hA : A.isStatic = true) :
    (solveConstraint c t curLen (some A) bB).1 = some A := by
  simp [solveConstraint, hA, apply_ite (f := Prod.fst)]

lemma solveConstraint_snd_static (c : ConstraintData) (t curLen : ℚ)
    (a? : Option Body) (bB : Body) (hB : bB.isStatic = true) :
    (solveConstraint c t curLen a? bB).2 = bB := by
  simp [solveConstraint, hB, apply_ite (f := Prod.snd)]

lemma constrainToBounds_static (w : WorldParams) (b : Body) (hb : b.isStatic = true) :
    constrainToBounds w b = b := by
  unfold constrainToBounds
  simp [hb]

lemma applyEv_static (e : Ev) (b : Body) (hb : b.isStatic = true) : applyEv e b = b := by
  cases e with
  | force ffx ffy => simp [applyEv, Body.applyForce, hb]
  | setVel vx vy => simp [applyEv, Body.setVelocity, hb]
  | gravityForce g => simp [applyEv, Body.applyGravityForce, hb]
  | integ w dt => simp [applyEv, Body.integrate, hb]
  | collideFst w hca hcb dc nc dist relVel other =>
    simp [applyEv, resolveCollision_fst_static _ _ _ _ _ _ _ _ _ hb]
  | collideSnd w hca hcb dc nc dist relVel other =>
    simp [applyEv, resolveCollision_snd_static _ _ _ _ _ _ _ _ _ hb]
  | solveAsA c t curLen other =>
    simp [applyEv, solveConstraint_fst_static _ _ _ _ _ hb]
  | solveAsB c t curLen otherA =>
    simp [applyEv, solveConstraint_snd_static _ _ _ _ _ hb]
  | bounds w => simp [applyEv, constrainToBounds_static _ _ hb]
  | postWarm => simp [applyEv, Body.postSolveWarm, hb]

lemma runEvents_static (evs : List Ev) (b : Body) (hb : b.isStatic = true) :
    runEvents evs b = b := by
  induction evs with
  | nil => rfl
  | cons e rest ih =>
    show runEvents rest (applyEv e b) = b
    rw [applyEv_static e b hb]
    exact ih

/-- Claim C2 — Static invariance: a body with `isStatic = true` has
bit-identical position (`x`, `y`, `prevX`, `prevY`) after any finite
sequence of engine mutations — `applyForce`/`setVelocity` calls, gravity
accumulation, integration, collision correction and impulse application
(in either role of the pair), constraint solving (as either side), bounds
containment and impulse warming — since every one of these operations
guards its writes behind an `isStatic` check. -/
theorem static_body_position_invariant (b : Body) (hb : b.isStatic = true) (evs : List Ev) :
    (runEvents evs b).x = b.x ∧ (runEvents evs b).y = b.y ∧
    (runEvents evs b).prevX = b.prevX ∧ (runEvents evs b).prevY = b.prevY := by
  rw [runEvents_static evs b hb]
  exact ⟨rfl, rfl, rfl, rfl⟩

/-- A concrete static body used to witness the static-invariance theorem. -/
def staticBody : Body :=
  { id := 0, x := 7, y := 11, prevX := 7, prevY := 11, ax := 0, ay := 0, fx := 0, fy := 0
    originX := 0, originY := 0, mass := 2, radius := 5
    gravity := none, friction := none, restitution := none
    isStatic := true, sleeping := false, enabled := true, isDragged := false
    constraintImpulseX := 0, constraintImpulseY := 0 }

/-- A world used in concrete witnesses: gravity 500, friction 1,
restitution ½, timestep 1, bounds 100 × 100. -/
def testWorld : WorldParams :=
  { gravity := 500, friction := 1, restitution := 1 / 2, timeStep := 1
    bounds := { x := 0, y := 0, width := 100, height := 100 } }

/-- Witness for `static_body_position_invariant`: a concrete static body
keeps position `(7, 11)` across a force call, a velocity call, an
integration and a bounds pass. -/
theorem static_body_position_invariant_witness :
    (runEvents [Ev.force 50 50, Ev.setVel 3 4, Ev.integ testWorld 1,
      Ev.bounds testWorld] staticBody).x = 7 ∧
    (runEvents [Ev.force 50 50, Ev.setVel 3 4, Ev.integ testWorld 1,
      Ev.bounds testWorld] staticBody).y = 11 := by
  have h := static_body_position_invariant staticBody rfl
    [Ev.force 50 50, Ev.setVel 3 4, Ev.integ testWorld 1, Ev.bounds testWorld]
  exact ⟨h.1.trans rfl, h.2.1.trans rfl⟩

/-- Claim C10 — `setVelocity`/`getVelocity` round trip: on an enabled,
non-static body, `setVelocity(vx, vy)` followed by `getVelocity()`
returns exactly `(vx, vy)` and leaves `x`, `y` and the accumulated
acceleration `ax`, `ay` unchanged; on a static or disabled body,
`setVelocity` changes no state at all. -/
theorem setVelocity_getVelocity_roundtrip (b : Body) (vx vy : ℚ) :
    (b.isStatic = false → b.enabled = true →
      (b.setVelocity vx vy).getVelocity = (vx, vy) ∧
      (b.setVelocity vx vy).x = b.x ∧ (b.setVelocity vx vy).y = b.y ∧
      (b.setVelocity vx vy).ax = b.ax ∧ (b.setVelocity vx vy).ay = b.ay) ∧
    (b.isStatic = true ∨ b.enabled = false → b.setVelocity vx vy = b) := by
  constructor
  · intro hs he
    simp [Body.setVelocity, Body.getVelocity, hs, he]
  · intro h
    rcases h with h | h <;> simp [Body.setVelocity, h]

/-- A concrete free (enabled, non-static) body at position `(20, 30)`. -/
def freeBody : Body :=
  { id := 1, x := 20, y := 30, prevX := 20, prevY := 30, ax := 0, ay := 0, fx := 0, fy := 0
    originX := 0, originY := 0, mass := 1, radius := 5
    gravity := none, friction := none, restitution := none
    isStatic := false, sleeping := false, enabled := true, isDragged := false
    constraintImpulseX := 0, constraintImpulseY := 0 }

/-- Witness for `setVelocity_getVelocity_roundtrip`: the free body reads
back velocity `(3, -4)` with position intact, and the static body is
untouched. -/
theorem setVelocity_getVelocity_roundtrip_witness :
    (freeBody.setVelocity 3 (-4)).getVelocity = (3, -4) ∧
    (freeBody.setVelocity 3 (-4)).x = 20 ∧
    staticBody.setVelocity 3 (-4) = staticBody := by
  refine ⟨((setVelocity_getVelocity_roundtrip freeBody 3 (-4)).1 rfl rfl).1,
    ?_, (setVelocity_getVelocity_roundtrip staticBody 3 (-4)).2 (Or.inl rfl)⟩
  exact ((setVelocity_getVelocity_roundtrip freeBody 3 (-4)).1 rfl rfl).2.1.trans rfl

/-- Claim C7 — Property inheritance: a body whose gravity override is null
resolves the containing world's gravity (the first `isWorld` ancestor);
a body with gravity set to `100` resolves `100` regardless of its parent
chain; with no containing world the defaults are gravity `0`, friction
`0.99` and restitution `0.8`. -/
theorem effective_property_inheritance (g f r : ℚ) (rest : List PNode)
    (chain : List PNode) :
    getEffectiveGravity none (PNode.world g f r :: rest) = g ∧
    getEffectiveGravity (some 100) chain = 100 ∧
    getEffectiveGravity none [] = 0 ∧
    getEffectiveFriction none [] = 99 / 100 ∧
    getEffectiveRestitution none [] = 8 / 10 := by
  exact ⟨rfl, rfl, rfl, rfl, rfl⟩

lemma integrate_iter_closed_form (w : WorldParams) (dt : ℚ) (b : Body)
    (hstat : b.isStatic = false) (hen : b.enabled = true)
    (hfr : b.friction.getD w.friction = 1) (hay : b.ay = 0) (hprev : b.prevY = b.y) :
    ∀ k : ℕ,
      ((Body.integrate w dt)^[k] b).isStatic = false ∧
      ((Body.integrate w dt)^[k] b).enabled = true ∧
      ((Body.integrate w dt)^[k] b).gravity = b.gravity ∧
      ((Body.integrate w dt)^[k] b).friction = b.friction ∧
      ((Body.integrate w dt)^[k] b).ay = 0 ∧
      ((Body.integrate w dt)^[k] b).y =
        b.y + b.gravity.getD w.gravity * dt ^ 2 * (k * (k + 1)) / 2 ∧
      ((Body.integrate w dt)^[k] b).prevY =
        b.y + b.gravity.getD w.gravity * dt ^ 2 * ((k - 1) * k) / 2 := by
  intro k
  induction k with
  | zero =>
    refine ⟨hstat, hen, rfl, rfl, hay, ?_, ?_⟩ <;> simp [hprev]
  | succ k ih =>
    obtain ⟨ih1, ih2, ih3, ih4, ih5, ih6, ih7⟩ := ih
    rw [Function.iterate_succ_apply']
    set bk := (Body.integrate w dt)^[k] b with hbk
    have hcond : ¬ (bk.isStatic = true ∨ ¬ bk.enabled = true) := by
      simp [ih1, ih2]
    refine ⟨?_, ?_, ?_, ?_, ?_, ?_, ?_⟩
    all_goals simp [Body.integrate, ih1, ih2, ih3, ih4, ih5, ih6, ih7, hfr]
    all_goals ring

/-- Claim C1 — Integration correctness: a single free (non-static, enabled)
entity under effective gravity `g` with no frictional damping (effective
friction factor `1`), starting at rest at height `y0` with a clear
acceleration accumulator, reaches after `n` integration steps of size `dt`
exactly `y0 + g·dt²·n(n+1)/2 = y0 + g·(n·dt)²/2 + g·n·dt²/2`; its
deviation from the ideal free-fall height `y0 + g·(n·dt)²/2` is therefore
exactly `g·n·dt²/2 ≤ (g·dt/2)·(n·dt)`, a quantity linear in `dt` — the
integration tolerance of this first-order-initialized Verlet scheme.  Each
step computes `current + (current − previous)·friction + acceleration·dt²`
and resets the acceleration to zero, as in `Body.integrate`. -/
theorem integration_free_fall (w : WorldParams) (dt y0 : ℚ) (b : Body) (n : ℕ)
    (hstat : b.isStatic = false) (hen : b.enabled = true)
    (hfr : b.friction.getD w.friction = 1) (hay : b.ay = 0)
    (hy : b.y = y0) (hprev : b.prevY = b.y) :
    ((Body.integrate w dt)^[n] b).y =
      y0 + b.gravity.getD w.gravity * (n * dt) ^ 2 / 2 +
        b.gravity.getD w.gravity * n * dt ^ 2 / 2 ∧
    (0 ≤ b.gravity.getD w.gravity → 0 ≤ dt →
      |((Body.integrate w dt)^[n] b).y - (y0 + b.gravity.getD w.gravity * (n * dt) ^ 2 / 2)| ≤
        b.gravity.getD w.gravity * dt / 2 * (n * dt)) := by
  have h := (integrate_iter_closed_form w dt b hstat hen hfr hay hprev n).2.2.2.2.2.1
  constructor
  · rw [h, hy]
    ring
  · intro hg hdt
    rw [h, hy]
    have hval : y0 + b.gravity.getD w.gravity * dt ^ 2 * (n * (n + 1)) / 2 -
        (y0 + b.gravity.getD w.gravity * (n * dt) ^ 2 / 2) =
        b.gravity.getD w.gravity * n * dt ^ 2 / 2 := by
      ring
    rw [hval]
    have hnn : (0 : ℚ) ≤ b.gravity.getD w.gravity * n * dt ^ 2 / 2 := by positivity
    rw [abs_of_nonneg hnn]
    apply le_of_eq
    ring

/-- A free body at rest at the origin of the test world, used to witness
the integration theorem. -/
def restBody : Body :=
  { id := 2, x := 0, y := 0, prevX := 0, prevY := 0, ax := 0, ay := 0, fx := 0, fy := 0
    originX := 0, originY := 0, mass := 1, radius := 5
    gravity := none, friction := some 1, restitution := none
    isStatic := false, sleeping := false, enabled := true, isDragged := false
    constraintImpulseX := 0, constraintImpulseY := 0 }

/-- Witness for `integration_free_fall`: under the test world's gravity
`500` with `dt = 1`, the resting body reaches `y = 500·(2·3)/2 = 1500`
after two steps. -/
theorem integration_free_fall_witness :
    ((Body.integrate testWorld 1)^[2] restBody).y = 1500 := by
  have h := (integration_free_fall testWorld 1 0 restBody 2 rfl rfl rfl rfl rfl rfl).1
  rw [h]
  norm_num [restBody, testWorld]

/-- Claim C6 — Constraint solving (reason starts `spec-modelled`: the
`inverseMass` field of the missing `Body` source is modelled from the
spec).  For enabled, non-dragged bodies, each `Constraint.solve` call
with time-scale `t` and current attachment distance `curLen`:
clamps a near-zero current distance to the minimum epsilon
(`len = max(curLen, 1e-6)`, hypothesis `hlen`); computes
`difference = (len − targetLength)/len` clamped to `[−0.5, 0.5]`
(`hclamped`); uses `stiffness' = stiffness · t` when the constraint is
rigid (`stiffness ≥ 1` or `length = 0`) and `stiffness · t²` otherwise
(`hstiff`); applies the correction `delta × (difference × stiffness')`
(`hfX`/`hfY`) to each non-static side in proportion to
`inverseMass_side / (inverseMassA + inverseMassB)`; and is a complete
no-op when the total inverse mass `mt` of the two sides is `0`. -/
theorem constraint_solve_formula (c : ConstraintData) (t curLen : ℚ)
    (a? : Option Body) (bB : Body)
    (hA : ∀ A ∈ a?, A.enabled = true ∧ A.isDragged = false)
    (hBe : bB.enabled = true) (hBd : bB.isDragged = false)
    (len clamped stiff fX fY mt : ℚ)
    (hlen : len = if curLen < minLength then minLength else curLen)
    (hclamped : clamped = max (-(1 / 2)) (min (1 / 2) ((len - c.length) / len)))
    (hstiff : stiff = if 1 ≤ c.stiffness ∨ c.length = 0 then c.stiffness * t
      else c.stiffness * t * t)
    (hfX : fX = ((getWorldPointA c a?).1 - (getWorldPointB c bB).1) * (clamped * stiff))
    (hfY : fY = ((getWorldPointA c a?).2 - (getWorldPointB c bB).2) * (clamped * stiff))
    (hmt : mt = (match a? with | some A => A.inverseMass | none => 0) + bB.inverseMass) :
    (mt = 0 → solveConstraint c t curLen a? bB = (a?, bB)) ∧
    (mt ≠ 0 →
      (∀ A, a? = some A → A.isStatic = false →
        ((solveConstraint c t curLen a? bB).1).map Body.x =
          some (A.x - fX * (A.inverseMass / mt)) ∧
        ((solveConstraint c t curLen a? bB).1).map Body.y =
          some (A.y - fY * (A.inverseMass / mt))) ∧
      (∀ A, a? = some A → A.isStatic = true →
        (solveConstraint c t curLen a? bB).1 = some A) ∧
      (bB.isStatic = false →
        (solveConstraint c t curLen a? bB).2.x = bB.x + fX * (bB.inverseMass / mt) ∧
        (solveConstraint c t curLen a? bB).2.y = bB.y + fY * (bB.inverseMass / mt)) ∧
      (bB.isStatic = true → (solveConstraint c t curLen a? bB).2 = bB)) := by
  subst hlen hclamped hstiff hfX hfY hmt
  constructor
  · intro h0
    cases a? with
    | none =>
      simp only [Option.mem_def] at hA
      simp at h0
      simp [solveConstraint, hBe, hBd, h0]
    | some A =>
      obtain ⟨hAe, hAd⟩ := hA A rfl
      simp at h0
      simp [solveConstraint, hBe, hBd, hAe, hAd, h0]
  · intro h0
    refine ⟨?_, ?_, ?_, ?_⟩
    · intro A hAeq hAstat
      subst hAeq
      obtain ⟨hAe, hAd⟩ := hA A rfl
      simp at h0
      constructor <;>
        simp [solveConstraint, hBe, hBd, hAe, hAd, h0, hAstat,
          apply_ite (f := Prod.fst), apply_ite (f := Option.map Body.x),
          apply_ite (f := Option.map Body.y), apply_ite (f := Body.x),
          apply_ite (f := Body.y)]
    · intro A hAeq hAstat
      subst hAeq
      obtain ⟨hAe, hAd⟩ := hA A rfl
      simp at h0
      simp [solveConstraint, hBe, hBd, hAe, hAd, h0, hAstat, apply_ite (f := Prod.fst)]
    · intro hBstat
      cases a? with
      | none =>
        simp at h0
        simp [solveConstraint, hBe, hBd, h0, hBstat, apply_ite (f := Prod.snd),
          apply_ite (f := Body.x), apply_ite (f := Body.y)]
      | some A =>
        obtain ⟨hAe, hAd⟩ := hA A rfl
        simp at h0
        simp [solveConstraint, hBe, hBd, hAe, hAd, h0, hBstat, apply_ite (f := Prod.snd),
          apply_ite (f := Body.x), apply_ite (f := Body.y)]
    · intro hBstat
      cases a? with
      | none =>
        simp at h0
        simp [solveConstraint, hBe, hBd, h0, hBstat, apply_ite (f := Prod.snd)]
      | some A =>
        obtain ⟨hAe, hAd⟩ := hA A rfl
        simp at h0
        simp [solveConstraint, hBe, hBd, hAe, hAd, h0, hBstat, apply_ite (f := Prod.snd)]

/-- The constraint used to witness the constraint-solve theorem: a fixed
world anchor at the origin, target length `10`, stiffness `1` (rigid),
no damping. -/
def anchorConstraint : ConstraintData :=
  { pointAx := 0, pointAy := 0, pointBx := 0, pointBy := 0
    length := 10, stiffness := 1, damping := 0 }

/-- A unit-mass dynamic body anchored at world position `(5, 0)`. -/
def anchoredBody : Body :=
  { id := 3, x := 0, y := 0, prevX := 0, prevY := 0, ax := 0, ay := 0, fx := 0, fy := 0
    originX := 5, originY := 0, mass := 1, radius := 5
    gravity := none, friction := none, restitution := none
    isStatic := false, sleeping := false, enabled := true, isDragged := false
    constraintImpulseX := 0, constraintImpulseY := 0 }

/-- Witness for `constraint_solve_formula`: the rigid anchor constraint at
distance `5` from target `10` pulls the unit-mass body from `x = 0` to
`x = 5/2` — `difference = (5 − 10)/5 = −1` clamps to `−1/2`, rigid
stiffness is `1 · 1`, so the correction is `dx · (−1/2) = 5/2` with the
full inverse-mass share. -/
theorem constraint_solve_formula_witness :
    (solveConstraint anchorConstraint 1 5 none anchoredBody).2.x = 5 / 2 := by
  have h := constraint_solve_formula anchorConstraint 1 5 none anchoredBody
    (by simp) rfl rfl _ _ _ _ _ _ rfl rfl rfl rfl rfl rfl
  have h2 := (h.2 (by norm_num [anchoredBody, Body.inverseMass])).2.2.1 rfl
  rw [h2.1]
  norm_num [anchoredBody, anchorConstraint, Body.inverseMass, minLength,
    getWorldPointA, getWorldPointB, Body.worldX, Body.worldY]

/-- Claim C3 — Bounds containment.  For a non-static, enabled, non-dragged
body driven into exactly one wall of the world bounds (the four
implications below cover bottom, top, left and right), after the bounds
phase (the last phase of a step) the body's envelope `position ± radius`
sits exactly on the violated wall and within every other wall (within
`ε = 0`), the off-axis position is untouched, and the velocity component
into the wall is reflected scaled by restitution — the restitution rule
`new_prev = current + (current − prev) · restitution` reflects the
post-push contact velocity `v + diff` (`diff` the push-back) — except
that when the incoming velocity magnitude is below the `0.3` threshold
the body is hard-stopped (velocity set to zero) instead of bounced. -/
theorem bounds_containment_reflection (w : WorldParams) (b : Body)
    (hstat : b.isStatic = false) (hen : b.enabled = true) (hdrag : b.isDragged = false) :
    (b.worldY + b.radius > w.bounds.height →
     ¬ b.worldX - b.radius < 0 →
     ¬ b.worldX + b.radius > w.bounds.width →
     2 * b.radius ≤ w.bounds.height →
      (constrainToBounds w b).worldY + b.radius = w.bounds.height ∧
      0 ≤ (constrainToBounds w b).worldY - b.radius ∧
      (constrainToBounds w b).worldX = b.worldX ∧
      0 ≤ (constrainToBounds w b).worldX - b.radius ∧
      (constrainToBounds w b).worldX + b.radius ≤ w.bounds.width ∧
      (¬ |b.y - b.prevY| < 3 / 10 →
        (constrainToBounds w b).y - (constrainToBounds w b).prevY =
          -(b.restitution.getD w.restitution *
            ((b.y - b.prevY) + (w.bounds.height - b.radius - b.worldY)))) ∧
      (|b.y - b.prevY| < 3 / 10 →
        (constrainToBounds w b).y - (constrainToBounds w b).prevY = 0)) ∧
    (b.worldY - b.radius < 0 →
     ¬ b.worldX - b.radius < 0 →
     ¬ b.worldX + b.radius > w.bounds.width →
     2 * b.radius ≤ w.bounds.height →
      (constrainToBounds w b).worldY - b.radius = 0 ∧
      (constrainToBounds w b).worldY + b.radius ≤ w.bounds.height ∧
      (constrainToBounds w b).worldX = b.worldX ∧
      0 ≤ (constrainToBounds w b).worldX - b.radius ∧
      (constrainToBounds w b).worldX + b.radius ≤ w.bounds.width ∧
      (¬ |b.y - b.prevY| < 3 / 10 →
        (constrainToBounds w b).y - (constrainToBounds w b).prevY =
          -(b.restitution.getD w.restitution *
            ((b.y - b.prevY) + (b.radius - b.worldY)))) ∧
      (|b.y - b.prevY| < 3 / 10 →
        (constrainToBounds w b).y - (constrainToBounds w b).prevY = 0)) ∧
    (b.worldX - b.radius < 0 →
     ¬ b.worldY + b.radius > w.bounds.height →
     ¬ b.worldY - b.radius < 0 →
     2 * b.radius ≤ w.bounds.width →
      (constrainToBounds w b).worldX - b.radius = 0 ∧
      (constrainToBounds w b).worldX + b.radius ≤ w.bounds.width ∧
      (constrainToBounds w b).worldY = b.worldY ∧
      0 ≤ (constrainToBounds w b).worldY - b.radius ∧
      (constrainToBounds w b).worldY + b.radius ≤ w.bounds.height ∧
      (¬ |b.x - b.prevX| < 3 / 10 →
        (constrainToBounds w b).x - (constrainToBounds w b).prevX =
          -(b.restitution.getD w.restitution *
            ((b.x - b.prevX) + (b.radius - b.worldX)))) ∧
      (|b.x - b.prevX| < 3 / 10 →
        (constrainToBounds w b).x - (constrainToBounds w b).prevX = 0)) ∧
    (b.worldX + b.radius > w.bounds.width →
     ¬ b.worldY + b.radius > w.bounds.height →
     ¬ b.worldY - b.radius < 0 →
     2 * b.radius ≤ w.bounds.width →
      (constrainToBounds w b).worldX + b.radius = w.bounds.width ∧
      0 ≤ (constrainToBounds w b).worldX - b.radius ∧
      (constrainToBounds w b).worldY = b.worldY ∧
      0 ≤ (constrainToBounds w b).worldY - b.radius ∧
      (constrainToBounds w b).worldY + b.radius ≤ w.bounds.height ∧
      (¬ |b.x - b.prevX| < 3 / 10 →
        (constrainToBounds w b).x - (constrainToBounds w b).prevX =
          -(b.restitution.getD w.restitution *
            ((b.x - b.prevX) + (w.bounds.width - b.radius - b.worldX)))) ∧
      (|b.x - b.prevX| < 3 / 10 →
        (constrainToBounds w b).x - (constrainToBounds w b).prevX = 0)) := by
  refine ⟨?_, ?_, ?_, ?_⟩
  · intro hB hL hR h2r
    have hT : ¬ b.worldY - b.radius < 0 := by
      simp only [Body.worldY] at hB ⊢
      linarith
    by_cases hv : |b.y - b.prevY| < 3 / 10
    · simp only [constrainToBounds, hstat, hen, hdrag, Bool.false_eq_true, Bool.true_eq_false,
        not_true, not_false_eq_true, false_or, or_false, or_self, if_false, ite_false, ite_true,
        if_pos hB, if_neg hT, if_neg hL, if_neg hR, if_pos hv]
      simp only [Body.worldX, Body.worldY] at hB hT hL hR h2r ⊢
      refine ⟨by ring_nf, by linarith, by norm_num, by linarith, by linarith,
        fun h => absurd hv h, fun h2 => by ring_nf⟩
    · simp only [constrainToBounds, hstat, hen, hdrag, Bool.false_eq_true, Bool.true_eq_false,
        not_true, not_false_eq_true, false_or, or_false, or_self, if_false, ite_false, ite_true,
        if_pos hB, if_neg hT, if_neg hL, if_neg hR, if_neg hv]
      simp only [Body.worldX, Body.worldY] at hB hT hL hR h2r ⊢
      refine ⟨by ring_nf, by linarith, by norm_num, by linarith, by linarith,
        fun h => by ring_nf, fun h2 => absurd h2 hv⟩
  · intro hT hL hR h2r
    have hB : ¬ b.worldY + b.radius > w.bounds.height := by
      simp only [Body.worldY] at hT ⊢
      linarith
    by_cases hv : |b.y - b.prevY| < 3 / 10
    · simp only [constrainToBounds, hstat, hen, hdrag, Bool.false_eq_true, Bool.true_eq_false,
        not_true, not_false_eq_true, false_or, or_false, or_self, if_false, ite_false, ite_true,
        if_neg hB, if_pos hT, if_neg hL, if_neg hR, if_pos hv]
      simp only [Body.worldX, Body.worldY] at hB hT hL hR h2r ⊢
      refine ⟨by ring_nf, by linarith, by norm_num, by linarith, by linarith,
        fun h => absurd hv h, fun h2 => by ring_nf⟩
    · simp only [constrainToBounds, hstat, hen, hdrag, Bool.false_eq_true, Bool.true_eq_false,
        not_true, not_false_eq_true, false_or, or_false, or_self, if_false, ite_false, ite_true,
        if_neg hB, if_pos hT, if_neg hL, if_neg hR, if_neg hv]
      simp only [Body.worldX, Body.worldY] at hB hT hL hR h2r ⊢
      refine ⟨by ring_nf, by linarith, by norm_num, by linarith, by linarith,
        fun h => by ring_nf, fun h2 => absurd h2 hv⟩
  · intro hL hB hT h2r
    have hR : ¬ b.worldX + b.radius > w.bounds.width := by
      simp only [Body.worldX] at hL ⊢
      linarith
    by_cases hv : |b.x - b.prevX| < 3 / 10
    · simp only [constrainToBounds, hstat, hen, hdrag, Bool.false_eq_true, Bool.true_eq_false,
        not_true, not_false_eq_true, false_or, or_false, or_self, if_false, ite_false, ite_true,
        if_neg hB, if_neg hT, if_pos hL, if_neg hR, if_pos hv]
      simp only [Body.worldX, Body.worldY] at hB hT hL hR h2r ⊢
      refine ⟨by ring_nf, by linarith, by norm_num, by linarith, by linarith,
        fun h => absurd hv h, fun h2 => by ring_nf⟩
    · simp only [constrainToBounds, hstat, hen, hdrag, Bool.false_eq_true, Bool.true_eq_false,
        not_true, not_false_eq_true, false_or, or_false, or_self, if_false, ite_false, ite_true,
        if_neg hB, if_neg hT, if_pos hL, if_neg hR, if_neg hv]
      simp only [Body.worldX, Body.worldY] at hB hT hL hR h2r ⊢
      refine ⟨by ring_nf, by linarith, by norm_num, by linarith, by linarith,
        fun h => by ring_nf, fun h2 => absurd h2 hv⟩
  · intro hR hB hT h2r
    have hL : ¬ b.worldX - b.radius < 0 := by
      simp only [Body.worldX] at hR ⊢
      linarith
    by_cases hv : |b.x - b.prevX| < 3 / 10
    · simp only [constrainToBounds, hstat, hen, hdrag, Bool.false_eq_true, Bool.true_eq_false,
        not_true, not_false_eq_true, false_or, or_false, or_self, if_false, ite_false, ite_true,
        if_neg hB, if_neg hT, if_neg hL, if_pos hR, if_pos hv]
      simp only [Body.worldX, Body.worldY] at hB hT hL hR h2r ⊢
      refine ⟨by ring_nf, by linarith, by norm_num, by linarith, by linarith,
        fun h => absurd hv h, fun h2 => by ring_nf⟩
    · simp only [constrainToBounds, hstat, hen, hdrag, Bool.false_eq_true, Bool.true_eq_false,
        not_true, not_false_eq_true, false_or, or_false, or_self, if_false, ite_false, ite_true,
        if_neg hB, if_neg hT, if_neg hL, if_pos hR, if_neg hv]
      simp only [Body.worldX, Body.worldY] at hB hT hL hR h2r ⊢
      refine ⟨by ring_nf, by linarith, by norm_num, by linarith, by linarith,
        fun h => by ring_nf, fun h2 => absurd h2 hv⟩

/-- A free resting disc: unit state at world x `px`, y `0`, mass `m`,
radius `r`. -/
def mkFreeBody (i : ℕ) (px m r : ℚ) : Body :=
  { id := i, x := px, y := 0, prevX := px, prevY := 0, ax := 0, ay := 0, fx := 0, fy := 0
    originX := 0, originY := 0, mass := m, radius := r
    gravity := none, friction := none, restitution := none
    isStatic := false, sleeping := false, enabled := true, isDragged := false
    constraintImpulseX := 0, constraintImpulseY := 0 }

/-- A body falling into the bottom wall of the test world: world position
`(50, 95)`, radius `10`, downward velocity `10`. -/
def fallingBody : Body :=
  { id := 8, x := 50, y := 95, prevX := 50, prevY := 85, ax := 0, ay := 0, fx := 0, fy := 0
    originX := 0, originY := 0, mass := 1, radius := 10
    gravity := none, friction := none, restitution := none
    isStatic := false, sleeping := false, enabled := true, isDragged := false
    constraintImpulseX := 0, constraintImpulseY := 0 }

/-- Witness for `bounds_containment_reflection` (bottom wall): the falling
body is pushed to `worldY = 90` (envelope exactly on the wall at `100`)
and its velocity becomes `-(1/2 · (10 + (100 − 10 − 95))) = -5/2`. -/
theorem bounds_containment_reflection_witness :
    (constrainToBounds testWorld fallingBody).worldY + fallingBody.radius = 100 ∧
    (constrainToBounds testWorld fallingBody).y -
      (constrainToBounds testWorld fallingBody).prevY = -(5 / 2) := by
  have h := (bounds_containment_reflection testWorld fallingBody rfl rfl rfl).1
    (by norm_num [fallingBody, testWorld, Body.worldY])
    (by norm_num [fallingBody, testWorld, Body.worldX])
    (by norm_num [fallingBody, testWorld, Body.worldX])
    (by norm_num [fallingBody, testWorld])
  refine ⟨?_, ?_⟩
  · have h1 := h.1
    simpa [testWorld, fallingBody] using h1
  · have h6 := h.2.2.2.2.2.1 (by norm_num [fallingBody])
    rw [h6]
    norm_num [fallingBody, testWorld, Body.worldY]

/-- Claim C4, amended — Overlap resolution for a pure x-axis overlap: for
two resting, non-static, non-dragged, unconstrained circular bodies whose
centers share a world y and differ by `0 < d < minDist` in x, one
`resolveCollision` call moves the centers apart along x only, to distance
`d + 0.3·(minDist − d)`; the distance never decreases, but only 30% of
the overlap is corrected (the `adjustedNX = nx * 0.3` damping for
mostly-horizontal collisions), so the post-resolution distance may remain
below `minDist − ε` — full separation to `minDist` is not guaranteed. -/
theorem overlap_resolution_damped (w : WorldParams) (a b : Body) (d : ℚ)
    (hadrag : a.isDragged = false) (hbdrag : b.isDragged = false)
    (hastat : a.isStatic = false) (hbstat : b.isStatic = false)
    (harx : a.prevX = a.x) (hary : a.prevY = a.y)
    (hbrx : b.prevX = b.x) (hbry : b.prevY = b.y)
    (hsameY : b.worldY = a.worldY)
    (hd : b.worldX - a.worldX = d)
    (hd0 : 0 < d) (hdlt : d < a.radius + b.radius)
    (hma : 0 < a.mass) (hmb : 0 < b.mass) :
    (resolveCollision w false false false false d 0 a b).2.worldX -
      (resolveCollision w false false false false d 0 a b).1.worldX =
      d + 3 / 10 * (a.radius + b.radius - d) ∧
    (resolveCollision w false false false false d 0 a b).1.worldY = a.worldY ∧
    (resolveCollision w false false false false d 0 a b).2.worldY = b.worldY ∧
    d ≤ (resolveCollision w false false false false d 0 a b).2.worldX -
      (resolveCollision w false false false false d 0 a b).1.worldX := by
  have hdne : d ≠ 0 := ne_of_gt hd0
  have hdsq : ¬ ((a.radius + b.radius) * (a.radius + b.radius) ≤ d * d) := by
    push_neg
    exact mul_self_lt_mul_self (le_of_lt hd0) hdlt
  have hdd0 : ¬ (d * d = 0) := by positivity
  have hmain : (resolveCollision w false false false false d 0 a b).2.worldX -
      (resolveCollision w false false false false d 0 a b).1.worldX =
      d + 3 / 10 * (a.radius + b.radius - d) := by
    simp only [resolveCollision, hadrag, hbdrag, hastat, hbstat, hsameY, hd,
      harx, hary, hbrx, hbry, sub_self]
    norm_num [hdsq, hdd0, div_self hdne, Body.worldX]
    have hd2 : b.originX + b.x - (a.originX + a.x) = d := by
      simpa [Body.worldX] using hd
    have hshare : a.mass / (a.mass + b.mass) + b.mass / (a.mass + b.mass) = 1 := by
      have hsum : a.mass + b.mass ≠ 0 := by positivity
      field_simp
    linear_combination hd2 + (3 / 10 * (a.radius + b.radius - d)) * hshare
  refine ⟨hmain, ?_, ?_, ?_⟩
  · simp only [resolveCollision, hadrag, hbdrag, hastat, hbstat, hsameY, hd,
      harx, hary, hbrx, hbry, sub_self]
    norm_num [hdsq, hdd0, div_self hdne, Body.worldY]
  · simp only [resolveCollision, hadrag, hbdrag, hastat, hbstat, hsameY, hd,
      harx, hary, hbrx, hbry, sub_self]
    norm_num [hdsq, hdd0, div_self hdne, Body.worldY]
    all_goals simp only [Body.worldY] at hsameY
    all_goals linarith
  · rw [hmain]
    nlinarith [hdlt]

/-- The left body of the concrete overlapping pair: radius `10`, mass `1`,
at the world origin. -/
def overlapBodyA : Body := mkFreeBody 4 0 1 10

/-- The right body of the concrete overlapping pair: radius `10`, mass
`1`, at world x `10` — overlapping `overlapBodyA` by `10`. -/
def overlapBodyB : Body := mkFreeBody 5 10 1 10

/-- Claim C4, counterexample — two resting circles of radius `10` whose
centers are `10` apart (`minDist = 20`, overlap `10`): one
`resolveCollision` call leaves their centers only `13` apart, which is
below `minDist − ε` even for `ε` as large as `5` — so post-resolution
distance `≥ minDist − ε` fails. -/
theorem overlap_resolution_counterexample :
    (resolveCollision testWorld false false false false 10 0 overlapBodyA overlapBodyB).2.worldX -
      (resolveCollision testWorld false false false false 10 0 overlapBodyA overlapBodyB).1.worldX
      = 13 ∧
    (resolveCollision testWorld false false false false 10 0 overlapBodyA overlapBodyB).1.worldY =
      (resolveCollision testWorld false false false false 10 0 overlapBodyA overlapBodyB).2.worldY ∧
    overlapBodyA.radius + overlapBodyB.radius = 20 ∧ (13 : ℚ) < 20 - 5 := by
  refine ⟨?_, ?_, by norm_num [overlapBodyA, overlapBodyB, mkFreeBody], by norm_num⟩ <;>
    norm_num [resolveCollision, overlapBodyA, overlapBodyB, mkFreeBody, Body.worldX,
      Body.worldY, Body.inverseMass, testWorld]

/-- Witness for `overlap_resolution_damped`: on the concrete pair
(`d = 10`, overlap `10`) the amended formula gives post distance
`10 + 0.3·10 = 13`. -/
theorem overlap_resolution_damped_witness :
    (resolveCollision testWorld false false false false 10 0 overlapBodyA overlapBodyB).2.worldX -
      (resolveCollision testWorld false false false false 10 0 overlapBodyA overlapBodyB).1.worldX
      = 13 := by
  have h := overlap_resolution_damped testWorld overlapBodyA overlapBodyB 10
    rfl rfl rfl rfl rfl rfl rfl rfl
    (by norm_num [overlapBodyA, overlapBodyB, mkFreeBody, Body.worldY])
    (by norm_num [overlapBodyA, overlapBodyB, mkFreeBody, Body.worldX])
    (by norm_num) (by norm_num [overlapBodyA, overlapBodyB, mkFreeBody])
    (by norm_num [overlapBodyA, mkFreeBody]) (by norm_num [overlapBodyB, mkFreeBody])
  rw [h.1]
  norm_num [overlapBodyA, overlapBodyB, mkFreeBody]

/-- Claim C5, amended — Mass-ratio separation with horizontal damping: for
a pure x-axis overlap between resting bodies of mass `m1 = 1` and
`m2 = 3`, each side's positional correction is weighted by its share of
inverse mass — the lighter body receives `3/4` and the heavier `1/4` of
the applied correction — but the applied correction for a
mostly-horizontal collision is `0.3·Δ`, not `Δ`: the lighter body moves
`0.3·(3Δ/4) = 9Δ/40` and the heavier `0.3·(Δ/4) = 3Δ/40` along x.  (The
simplified engine variant in `src/unnamed/part_001` applies the undamped
`3Δ/4` and `Δ/4`.) -/
theorem mass_ratio_separation_damped (w : WorldParams) (a b : Body) (d : ℚ)
    (hadrag : a.isDragged = false) (hbdrag : b.isDragged = false)
    (hastat : a.isStatic = false) (hbstat : b.isStatic = false)
    (harx : a.prevX = a.x) (hary : a.prevY = a.y)
    (hbrx : b.prevX = b.x) (hbry : b.prevY = b.y)
    (hsameY : b.worldY = a.worldY)
    (hd : b.worldX - a.worldX = d)
    (hd0 : 0 < d) (hdlt : d < a.radius + b.radius)
    (hma : a.mass = 1) (hmb : b.mass = 3) :
    (resolveCollision w false false false false d 0 a b).1.x =
      a.x - 3 / 10 * (3 / 4 * (a.radius + b.radius - d)) ∧
    (resolveCollision w false false false false d 0 a b).2.x =
      b.x + 3 / 10 * (1 / 4 * (a.radius + b.radius - d)) ∧
    (resolveCollision w false false false false d 0 a b).1.y = a.y ∧
    (resolveCollision w false false false false d 0 a b).2.y = b.y := by
  have hdne : d ≠ 0 := ne_of_gt hd0
  have hdsq : ¬ ((a.radius + b.radius) * (a.radius + b.radius) ≤ d * d) := by
    push_neg
    exact mul_self_lt_mul_self (le_of_lt hd0) hdlt
  have hdd0 : ¬ (d * d = 0) := by positivity
  refine ⟨?_, ?_, ?_, ?_⟩ <;>
    simp only [resolveCollision, hadrag, hbdrag, hastat, hbstat, hsameY, hd,
      harx, hary, hbrx, hbry, sub_self, hma, hmb] <;>
    norm_num [hdsq, hdd0, div_self hdne] <;>
    ring_nf

/-- The lighter body (mass `1`, radius `10`) of the concrete 1 : 3 pair,
at the world origin. -/
def lightBody : Body := mkFreeBody 6 0 1 10

/-- The heavier body (mass `3`, radius `10`) of the concrete 1 : 3 pair,
at world x `10` — overlap `Δ = 10` along the x-axis. -/
def heavyBody : Body := mkFreeBody 7 10 3 10

/-- Claim C5, counterexample — for the concrete 1 : 3 pair with overlap
`Δ = 10`, the lighter body moves `9/4` (not `3Δ/4 = 15/2`) and the
heavier moves `3/4` (not `Δ/4 = 5/2`): the claimed displacements are off
by `21/4` and `7/4` — far beyond tolerance (more than half the overlap). -/
theorem mass_ratio_separation_counterexample :
    lightBody.x -
      (resolveCollision testWorld false false false false 10 0 lightBody heavyBody).1.x = 9 / 4 ∧
    (resolveCollision testWorld false false false false 10 0 lightBody heavyBody).2.x -
      heavyBody.x = 3 / 4 ∧
    ¬ ((9 : ℚ) / 4 = 3 / 4 * 10) ∧ ¬ ((3 : ℚ) / 4 = 1 / 4 * 10) ∧
    (3 / 4 * 10 - (9 : ℚ) / 4 = 21 / 4) ∧ ((21 : ℚ) / 4 > 10 / 2) := by
  refine ⟨?_, ?_, by norm_num, by norm_num, by norm_num, by norm_num⟩ <;>
    norm_num [resolveCollision, lightBody, heavyBody, mkFreeBody, Body.worldX,
      Body.worldY, Body.inverseMass, testWorld]

/-- Witness for `mass_ratio_separation_damped`: the concrete 1 : 3 pair
with `Δ = 10` gives displacements `9/4` and `3/4`. -/
theorem mass_ratio_separation_damped_witness :
    (resolveCollision testWorld false false false false 10 0 lightBody heavyBody).1.x = -(9 / 4) ∧
    (resolveCollision testWorld false false false false 10 0 lightBody heavyBody).2.x =
      10 + 3 / 4 := by
  have h := mass_ratio_separation_damped testWorld lightBody heavyBody 10
    rfl rfl rfl rfl rfl rfl rfl rfl
    (by norm_num [lightBody, heavyBody, mkFreeBody, Body.worldY])
    (by norm_num [lightBody, heavyBody, mkFreeBody, Body.worldX])
    (by norm_num) (by norm_num [lightBody, heavyBody, mkFreeBody])
    (by norm_num [lightBody, mkFreeBody]) (by norm_num [heavyBody, mkFreeBody])
  constructor
  · rw [h.1]
    norm_num [lightBody, heavyBody, mkFreeBody]
  · rw [h.2.1]
    norm_num [lightBody, heavyBody, mkFreeBody]

/-- First of three distinct bodies inserted at world position `(0, 0)`. -/
def hashBody0 : Body := mkFreeBody 9 0 1 10

/-- Second of three distinct bodies at world position `(0, 0)`. -/
def hashBody1 : Body := mkFreeBody 10 0 1 10

/-- Third of three distinct bodies at world position `(0, 0)`. -/
def hashBody2 : Body := mkFreeBody 11 0 1 10

/-- The spatial hash (cell size `100`) after inserting the three
coincident bodies, in order. -/
def hashGrid3 : Grid :=
  shInsert 100 (shInsert 100 (shInsert 100 [] hashBody0) hashBody1) hashBody2

lemma pairKeyJs_const (a b : Body) :
    pairKeyJs a b = "[object Object]-[object Object]" := by
  unfold pairKeyJs jsToString
  rw [if_neg (lt_irrefl _)]
  decide

/-- Claim C9 — `SpatialHash.getPairs` de-duplication bug: with three
distinct bodies in the same cell, every unordered pair shares a cell, yet
`getPairs` returns only the single pair `(b0, b1)`.  The pair key
``a < b ? `${a}-${b}` : `${b}-${a}` `` coerces every `Body` to
`"[object Object]"`, so all pairs collide on one key
`"[object Object]-[object Object]"` and every pair after the first is
discarded as a duplicate — contradicting both the claim and the source's
own `// Create unique pair key` comment. -/
theorem spatial_hash_pairs_dedup_bug :
    getPairs hashGrid3 = [(hashBody0, hashBody1)] ∧
    SharesCell hashGrid3 hashBody0 hashBody2 ∧
    SharesCell hashGrid3 hashBody1 hashBody2 ∧
    (hashBody0, hashBody2) ∉ getPairs hashGrid3 ∧
    (hashBody2, hashBody0) ∉ getPairs hashGrid3 ∧
    (hashBody1, hashBody2) ∉ getPairs hashGrid3 ∧
    (hashBody2, hashBody1) ∉ getPairs hashGrid3 := by
  have hgrid : hashGrid3 = [
      ((-1, -1), [hashBody0, hashBody1, hashBody2]),
      ((-1, 0), [hashBody0, hashBody1, hashBody2]),
      ((-1, 1), [hashBody0, hashBody1, hashBody2]),
      ((0, -1), [hashBody0, hashBody1, hashBody2]),
      ((0, 0), [hashBody0, hashBody1, hashBody2]),
      ((0, 1), [hashBody0, hashBody1, hashBody2]),
      ((1, -1), [hashBody0, hashBody1, hashBody2]),
      ((1, 0), [hashBody0, hashBody1, hashBody2]),
      ((1, 1), [hashBody0, hashBody1, hashBody2])] := by
    norm_num [hashGrid3, shInsert, cellOffsets, gridAdd, hashBody0, hashBody1, hashBody2,
      mkFreeBody, Body.worldX, Body.worldY]
  have hpairs : getPairs hashGrid3 = [(hashBody0, hashBody1)] := by
    rw [hgrid]
    simp [getPairs, getPairsAux, getPairsCell, getPairsInner, pairKeyJs_const]
  refine ⟨hpairs, ?_, ?_, ?_, ?_, ?_, ?_⟩
  · exact ⟨((-1, -1), [hashBody0, hashBody1, hashBody2]), by rw [hgrid]; simp, by simp, by simp⟩
  · exact ⟨((-1, -1), [hashBody0, hashBody1, hashBody2]), by rw [hgrid]; simp, by simp, by simp⟩
  · rw [hpairs]
    simp [hashBody0, hashBody1, hashBody2, mkFreeBody]
  · rw [hpairs]
    simp [hashBody0, hashBody1, hashBody2, mkFreeBody]
  · rw [hpairs]
    simp [hashBody0, hashBody1, hashBody2, mkFreeBody]
  · rw [hpairs]
    simp [hashBody0, hashBody1, hashBody2, mkFreeBody]

/-- The out-of-range configuration of the invalid-construction claim:
negative mass and negative radius. -/
def negativeConfig : BodyConfig :=
  { mass := some (-1), radius := some (-2) }

/-- A 30 × 30 element rectangle at the world origin. -/
def rect30 : ElemRect := { left := 0, top := 0, width := 30, height := 30 }

/-- Claim C8, counterexample — the `Body` constructor performs no validation:
constructing with `mass = -1` and `radius = -2` succeeds (the constructor
is a total function with no failure channel) and stores the negative
values verbatim, so construction is *not* rejected with an
`InvalidConfiguration` failure. -/
theorem construct_accepts_negative_config :
    (construct 0 negativeConfig rect30 rect30).mass = -1 ∧
    (construct 0 negativeConfig rect30 rect30).radius = -2 := by
  exact ⟨rfl, rfl⟩

/-- Claim C8, amended — construction stores the configured mass and radius
unchanged, with defaults `mass = 1` and
`radius = max(width, height) / 2` when unspecified; out-of-range values
(negative mass or radius) are neither rejected nor clamped. -/
theorem construct_stores_config_verbatim (i : ℕ) (cfg : BodyConfig)
    (elemRect worldRect : ElemRect) :
    (construct i cfg elemRect worldRect).mass = cfg.mass.getD 1 ∧
    (construct i cfg elemRect worldRect).radius =
      cfg.radius.getD (max elemRect.width elemRect.height / 2) := by
  exact ⟨rfl, rfl⟩

end DomPhysics
